import Mathlib

/-!
PGValue: PostgreSQL value sources behind one accessor contract

A shallow embedding of `src/ports/postgres/dbconnector/PGValue.hpp`.

The header declares two specialisations of `template <typename T> class PGValue`:

* `PGValue<FunctionCallInfo>` holds one member, `const FunctionCallInfo fcinfo`,
  set by the constructor from `inFCinfo`;
* `PGValue<HeapTupleHeader>` holds one member, `const HeapTupleHeader mTuple`,
  set by the constructor from `inTuple`.

Each has `clone() const`, whose body is in the header
(`return AbstractValueSPtr( new PGValue<...>(*this) );`), and
`getValueByID(unsigned int inID) const`, which the header only declares.

Layout of the development:

1. the backend side (what a `FunctionCallInfo` and a `HeapTupleHeader` point to);
2. the two adapter classes, their constructors, copy constructors and `clone`;
3. the free store on which `new` places adapter objects, and the world;
4. the accessor bodies, which are not part of the header;
5. theorems.
-/

namespace madlib.dbconnector

/-! ## 1. Backend side -/

/-- PostgreSQL type identifier: the type tag that tells how a datum is to be read. -/
abbrev Oid := Nat

/-- PostgreSQL datum: the raw machine word of a scalar, meaningless without its type tag. -/
abbrev Datum := Nat

/-- The pointer type `FunctionCallInfo` of `fmgr.h`: an address of an invocation
context owned by the backend. -/
structure FunctionCallInfo where
  addr : Nat
deriving DecidableEq, Repr

/-- The pointer type `HeapTupleHeader` of `access/htup.h`: an address of a packed
composite record owned by the backend. -/
structure HeapTupleHeader where
  addr : Nat
deriving DecidableEq, Repr

/-- Modelled from the spec: the invocation context a `FunctionCallInfo` points to
(the struct itself is declared in PostgreSQL's `fmgr.h`, outside the repository).
Section 6 of the specification: the invocation context supplies an argument count,
per-argument raw datum and null flag, and per-argument type-tag metadata, addressable
by 0-based index. The three arrays are total maps: positions at or beyond `nargs`
hold whatever the backend left there. -/
structure FunctionCallInfoData where
  nargs : Nat
  arg : Nat → Datum
  argnull : Nat → Bool
  argtype : Nat → Oid

/-- Modelled from the spec: the packed composite record a `HeapTupleHeader` points
to, together with what the record descriptor resolver returns for it (the record
layout and the resolver belong to PostgreSQL, outside the repository). Section 6 of
the specification: field count, per-field type tag and null bitmap, addressable by
1-based field index; `attnull f` is the null bit of field `f`, `attval f` the stored
datum of field `f`. -/
structure HeapTupleHeaderData where
  natts : Nat
  attnull : Nat → Bool
  atttype : Nat → Oid
  attval : Nat → Datum

/-- Backend memory: what each native pointer refers to. The adapters never own this
memory; they only hold addresses into it. -/
structure Backend where
  fcinfoData : FunctionCallInfo → FunctionCallInfoData
  tupleData : HeapTupleHeader → HeapTupleHeaderData

/-! ## 2. The adapter classes -/

/-- The class `PGValue<FunctionCallInfo>`: its only data member is
`const FunctionCallInfo fcinfo` (line 49). -/
structure PGValue_FunctionCallInfo where
  fcinfo : FunctionCallInfo
deriving DecidableEq, Repr

/-- The class `PGValue<HeapTupleHeader>`: its only data member is
`const HeapTupleHeader mTuple` (line 66). -/
structure PGValue_HeapTupleHeader where
  mTuple : HeapTupleHeader
deriving DecidableEq, Repr

/-- Constructor `PGValue<FunctionCallInfo>(const FunctionCallInfo inFCinfo)` with the
member initialiser `fcinfo(inFCinfo)` and an empty body (lines 34-35). -/
def PGValue_FunctionCallInfo.construct (inFCinfo : FunctionCallInfo) :
    PGValue_FunctionCallInfo :=
  { fcinfo := inFCinfo }

/-- Constructor `PGValue<HeapTupleHeader>(HeapTupleHeader inTuple)` with the member
initialiser `mTuple(inTuple)` and an empty body (lines 55-56). -/
def PGValue_HeapTupleHeader.construct (inTuple : HeapTupleHeader) :
    PGValue_HeapTupleHeader :=
  { mTuple := inTuple }

/-- The copy constructor the compiler generates for `PGValue<FunctionCallInfo>`
(the class declares none): memberwise copy, so the pointer is copied and the
invocation context it points to is not. -/
def PGValue_FunctionCallInfo.copy (other : PGValue_FunctionCallInfo) :
    PGValue_FunctionCallInfo :=
  { fcinfo := other.fcinfo }

/-- The copy constructor the compiler generates for `PGValue<HeapTupleHeader>`:
memberwise copy of the pointer `mTuple`. -/
def PGValue_HeapTupleHeader.copy (other : PGValue_HeapTupleHeader) :
    PGValue_HeapTupleHeader :=
  { mTuple := other.mTuple }

/-- An object seen through the base class `PGAbstractValue`: its dynamic type is one
of the two specialisations declared in the header. -/
inductive PGAbstractValue where
  | ofFunctionCallInfo (v : PGValue_FunctionCallInfo)
  | ofHeapTupleHeader (v : PGValue_HeapTupleHeader)
deriving DecidableEq, Repr

/-- Value part of `PGValue<FunctionCallInfo>::clone` (lines 40-42): the object
`PGValue<FunctionCallInfo>(*this)` that `new` places on the free store. -/
def PGValue_FunctionCallInfo.clone (self : PGValue_FunctionCallInfo) : PGAbstractValue :=
  PGAbstractValue.ofFunctionCallInfo (PGValue_FunctionCallInfo.copy self)

/-- Value part of `PGValue<HeapTupleHeader>::clone` (lines 61-63): the object
`PGValue<HeapTupleHeader>(*this)` that `new` places on the free store. -/
def PGValue_HeapTupleHeader.clone (self : PGValue_HeapTupleHeader) : PGAbstractValue :=
  PGAbstractValue.ofHeapTupleHeader (PGValue_HeapTupleHeader.copy self)

/-- Virtual dispatch of `clone` on the dynamic type. -/
def PGAbstractValue.clone : PGAbstractValue → PGAbstractValue
  | .ofFunctionCallInfo v => v.clone
  | .ofHeapTupleHeader v => v.clone

/-! ## 3. Free store and world -/

/-- A handle `AbstractValueSPtr` to an adapter object: the address of the object on
the free store. Reference counts are not modelled; releasing the last handle is the
explicit `destroy` below. -/
abbrev AbstractValueSPtr := Nat

/-- The free store holding adapter objects. `objects p` is the live object at address
`p`, if any; `next` is the address the next `new` hands out. -/
structure FreeStore where
  objects : Nat → Option PGAbstractValue
  next : Nat

/-- The expression `new T(...)`: place `obj` at the next address and advance. -/
def FreeStore.alloc (s : FreeStore) (obj : PGAbstractValue) : AbstractValueSPtr × FreeStore :=
  (s.next, { objects := fun q => if q = s.next then some obj else s.objects q,
             next := s.next + 1 })

/-- Release of the object at `p`. Neither class declares a destructor and the only
member is a raw pointer, so destruction releases the adapter object and nothing
else. -/
def FreeStore.destroy (s : FreeStore) (p : AbstractValueSPtr) : FreeStore :=
  { objects := fun q => if q = p then none else s.objects q, next := s.next }

/-- The allocator never hands out an address that is in use: every live object lies
below `next`. -/
def FreeStore.WellFormed (s : FreeStore) : Prop :=
  ∀ q, s.next ≤ q → s.objects q = none

/-- The program state: backend memory (invocation contexts and records) and the
free store of adapter objects. -/
structure World where
  backend : Backend
  store : FreeStore

/-- Construction of an adapter object on the free store. The backend memory is not
touched. -/
def World.construct (w : World) (obj : PGAbstractValue) : AbstractValueSPtr × World :=
  ((w.store.alloc obj).1, { backend := w.backend, store := (w.store.alloc obj).2 })

/-- The call `p->clone()` (lines 40-42 and 61-63): copy-construct from `*this`, place
the copy with `new`, return the handle. No result when `p` is not a live object. -/
def World.clone (w : World) (p : AbstractValueSPtr) : Option (AbstractValueSPtr × World) :=
  match w.store.objects p with
  | none => none
  | some obj => some (w.construct obj.clone)

/-- Destruction of the adapter object at `p`: the object leaves the free store; the
backend memory its pointer refers to is left alone. -/
def World.destroy (w : World) (p : AbstractValueSPtr) : World :=
  { backend := w.backend, store := w.store.destroy p }

/-- The call `p->getValueByID(inID)` for an accessor body `g`. The method is declared
`const` and its body is not in the header, so the body enters as a function of the
backend memory, the object (dynamic type and wrapped pointer) and the identifier.
The body reads and does not write: the header cannot show that for the memory behind
the pointer, it is section 4.1 of the specification (the underlying source is never
mutated). The identifier is an `unsigned int`; no arithmetic is done on it, so it is
a natural number here. No result when `p` is not a live object. -/
def World.getValueByID {β : Type} (g : Backend → PGAbstractValue → Nat → β)
    (w : World) (p : AbstractValueSPtr) (inID : Nat) : Option β :=
  match w.store.objects p with
  | none => none
  | some obj => some (g w.backend obj inID)

/-- The operations a holder of a handle can invoke (section 6 of the specification:
`getValueByID(id)` and `clone()`, no others). -/
inductive Operation where
  | getValueByID (inID : Nat)
  | clone
deriving DecidableEq, Repr

/-- What an operation hands back to the caller. -/
inductive Outcome (β : Type) where
  | value (v : β)
  | handle (p : AbstractValueSPtr)

/-- One operation on the object at `p`, as a state transformer. Both methods are
declared `const`, so neither reassigns the pointer member and the object at `p` is
left as it is. `clone` adds one object to the free store. `getValueByID` has no body
in the header, and a `const` pointer member does not make the memory behind it
`const`: its body enters as `body`, which hands back a value together with the
backend memory as the call leaves it, so a body is free to write through the
pointer. -/
def Operation.run {β : Type} (body : Backend → PGAbstractValue → Nat → β × Backend)
    (op : Operation) (w : World) (p : AbstractValueSPtr) : Option (Outcome β × World) :=
  match op with
  | .getValueByID inID =>
    match w.store.objects p with
    | none => none
    | some obj =>
      some (Outcome.value (body w.backend obj inID).1,
        { backend := (body w.backend obj inID).2, store := w.store })
  | .clone =>
    match w.clone p with
    | none => none
    | some (c, w') => some (Outcome.handle c, w')

/-- A sequence of operations on the same object, left to right; the outcomes are
collected in order. -/
def runAll {β : Type} (body : Backend → PGAbstractValue → Nat → β × Backend) :
    List Operation → World → AbstractValueSPtr → Option (List (Outcome β) × World)
  | [], w, _ => some ([], w)
  | op :: ops, w, p =>
    match op.run body w p with
    | none => none
    | some (o, w') =>
      match runAll body ops w' p with
      | none => none
      | some (os, w'') => some (o :: os, w'')

/-! ## 4. The accessor bodies

The header declares `getValueByID` for both specialisations and defines neither; the
bodies below follow the specification. -/

/-- The tag of a value's runtime type on the toolkit side. -/
abbrev TypeTag := Nat

/-- The value every accessor call hands back: either the null value, or a datum
with the tag of its runtime type. -/
inductive AbstractValue where
  | null
  | value (typeTag : TypeTag) (bits : Datum)
deriving DecidableEq, Repr

/-- Nullability of a value. -/
def AbstractValue.isNull : AbstractValue → Bool
  | .null => true
  | .value _ _ => false

/-- The error taxonomy of section 7 of the specification. `NullDereference` is
listed there as signalled by handing back a null value, so no accessor raises it. -/
inductive PGError where
  | InvalidIdentifier
  | UnsupportedType
  | NullDereference
deriving DecidableEq, Repr

/-- Modelled from the spec: the body of `PGValue<FunctionCallInfo>::getValueByID`,
which the header declares (line 38) and does not define. Sections 3, 4.2, 7 and 8:
the identifier is a 0-based argument position and must be below the argument count,
otherwise the call fails with `InvalidIdentifier`; an argument whose null flag is set
yields the null value without touching the stored datum; otherwise the type tag the
invocation carries for that argument is looked up, a tag with no known mapping fails
with `UnsupportedType`, and a known one wraps the raw datum. `typeMapping` is the
toolkit's mapping from backend type tags to value types, which the specification
leaves to a collaborating subsystem. -/
def PGValue_FunctionCallInfo.getValueByID (typeMapping : Oid → Option TypeTag)
    (b : Backend) (self : PGValue_FunctionCallInfo) (inID : Nat) :
    Except PGError AbstractValue :=
  if (b.fcinfoData self.fcinfo).nargs ≤ inID then
    Except.error PGError.InvalidIdentifier
  else if (b.fcinfoData self.fcinfo).argnull inID then
    Except.ok AbstractValue.null
  else
    match typeMapping ((b.fcinfoData self.fcinfo).argtype inID) with
    | none => Except.error PGError.UnsupportedType
    | some t => Except.ok (AbstractValue.value t ((b.fcinfoData self.fcinfo).arg inID))

/-- Modelled from the spec: the body of `PGValue<HeapTupleHeader>::getValueByID`,
which the header declares (line 59) and does not define. Sections 3, 4.3, 7 and 8:
the identifier is a 1-based field index, so 0 and anything above the field count fail
with `InvalidIdentifier`; a field whose null bit is set yields the null value;
otherwise the field's type tag is looked up, a tag with no known mapping fails with
`UnsupportedType`, and a known one wraps the extracted datum. -/
def PGValue_HeapTupleHeader.getValueByID (typeMapping : Oid → Option TypeTag)
    (b : Backend) (self : PGValue_HeapTupleHeader) (inID : Nat) :
    Except PGError AbstractValue :=
  if inID = 0 ∨ (b.tupleData self.mTuple).natts < inID then
    Except.error PGError.InvalidIdentifier
  else if (b.tupleData self.mTuple).attnull inID then
    Except.ok AbstractValue.null
  else
    match typeMapping ((b.tupleData self.mTuple).atttype inID) with
    | none => Except.error PGError.UnsupportedType
    | some t => Except.ok (AbstractValue.value t ((b.tupleData self.mTuple).attval inID))

/-- Virtual dispatch of `getValueByID` on the dynamic type. -/
def PGAbstractValue.getValueByID (typeMapping : Oid → Option TypeTag) (b : Backend) :
    PGAbstractValue → Nat → Except PGError AbstractValue
  | .ofFunctionCallInfo v, inID => v.getValueByID typeMapping b inID
  | .ofHeapTupleHeader v, inID => v.getValueByID typeMapping b inID

/-- Modelled from the spec: what a `getValueByID` call does to the backend memory.
The header gives neither specialisation a body, and the `const` pointer members leave
the invocation context and the record writable, so the code under `src/` does not
settle this. Sections 4.1, 4.2 and 4.3 of the specification: no side effects on the
wrapped invocation context or record, the underlying source is never mutated. The
call therefore hands back the value of the bodies above and the backend memory as it
found it. -/
def PGAbstractValue.getValueByIDEffect (typeMapping : Oid → Option TypeTag)
    (b : Backend) (obj : PGAbstractValue) (inID : Nat) :
    Except PGError AbstractValue × Backend :=
  (obj.getValueByID typeMapping b inID, b)

/-! ## Sample data

The two scenarios of section 8 of the specification, used to instantiate the
theorems below. -/

/-- A type mapping that knows three backend types (16, 23 and 701) and no other. -/
def sampleTypeMapping : Oid → Option TypeTag :=
  fun t => if t = 16 then some 0 else if t = 23 then some 1 else if t = 701 then some 2 else none

/-- An invocation with 3 arguments, argument 1 marked null. Arguments 0 and 1 are of
type 23; argument 2 is of type 2281, which `sampleTypeMapping` does not know. -/
def invocation3 : FunctionCallInfoData :=
  { nargs := 3
    arg := fun i => 100 + i
    argnull := fun i => i == 1
    argtype := fun i => if i = 2 then 2281 else 23 }

/-- A record with 4 fields, the null bit of field 2 set. Fields 1 to 3 are of type
701; field 4 is of type 2281, which `sampleTypeMapping` does not know. -/
def record4 : HeapTupleHeaderData :=
  { natts := 4
    attnull := fun f => f == 2
    atttype := fun f => if f = 4 then 2281 else 701
    attval := fun f => 200 + f }

/-- Backend memory holding `invocation3` and `record4` at every address. -/
def sampleBackend : Backend :=
  { fcinfoData := fun _ => invocation3, tupleData := fun _ => record4 }

/-- The call-argument adapter constructed from the pointer at address 4096. -/
def sampleCallArguments : PGValue_FunctionCallInfo :=
  PGValue_FunctionCallInfo.construct { addr := 4096 }

/-- The record adapter constructed from the pointer at address 8192. -/
def sampleRecord : PGValue_HeapTupleHeader :=
  PGValue_HeapTupleHeader.construct { addr := 8192 }

/-- A world with two live adapter objects: the call-argument adapter at address 0 and
the record adapter at address 1. -/
def sampleWorld : World :=
  { backend := sampleBackend
    store :=
      { objects := fun q =>
          if q = 0 then some (PGAbstractValue.ofFunctionCallInfo sampleCallArguments)
          else if q = 1 then some (PGAbstractValue.ofHeapTupleHeader sampleRecord)
          else none
        next := 2 } }

/-! ## 5. Theorems -/

/-! ### Shared lemmas -/

theorem clone_eq_self (obj : PGAbstractValue) : obj.clone = obj := by
  cases obj <;> rfl

theorem iterate_clone_eq_self (n : Nat) (obj : PGAbstractValue) :
    PGAbstractValue.clone^[n] obj = obj := by
  induction n with
  | zero => rfl
  | succ k ih => rw [Function.iterate_succ_apply, clone_eq_self, ih]

theorem live_lt_next (s : FreeStore) (hwf : s.WellFormed) (p : Nat) (obj : PGAbstractValue)
    (hlive : s.objects p = some obj) : p < s.next := by
  by_contra hge
  have hnone := hwf p (Nat.le_of_not_lt hge)
  rw [hnone] at hlive
  exact Option.noConfusion hlive

theorem sampleWorld_wellFormed : sampleWorld.store.WellFormed := by
  intro q hq
  have h2 : 2 ≤ q := hq
  have h0 : q ≠ 0 := by omega
  have h1 : q ≠ 1 := by omega
  simp [sampleWorld, h0, h1]

theorem clone_of_live (w : World) (p : AbstractValueSPtr) (obj : PGAbstractValue)
    (hlive : w.store.objects p = some obj) :
    w.clone p = some (w.store.next,
      { backend := w.backend
        store := { objects := fun q => if q = w.store.next then some obj.clone
                                       else w.store.objects q
                   next := w.store.next + 1 } }) := by
  simp [World.clone, hlive, World.construct, FreeStore.alloc]

theorem run_preserves {β : Type} (body : Backend → PGAbstractValue → Nat → β × Backend)
    (op : Operation) (w : World) (p : AbstractValueSPtr) (obj : PGAbstractValue)
    (hlive : w.store.objects p = some obj) (hlt : p < w.store.next) :
    ∃ o w', op.run body w p = some (o, w') ∧ w'.store.objects p = some obj ∧
      p < w'.store.next ∧
      ((∀ b x i, (body b x i).2 = b) → w'.backend = w.backend) := by
  cases op with
  | getValueByID inID =>
    refine ⟨Outcome.value (body w.backend obj inID).1,
      { backend := (body w.backend obj inID).2, store := w.store }, ?_, hlive, hlt, ?_⟩
    · simp [Operation.run, hlive]
    · intro hread
      exact hread w.backend obj inID
  | clone =>
    refine ⟨Outcome.handle w.store.next,
      { backend := w.backend
        store := { objects := fun q => if q = w.store.next then some obj.clone
                                       else w.store.objects q
                   next := w.store.next + 1 } }, ?_, ?_, ?_, fun _ => rfl⟩
    · simp only [Operation.run, clone_of_live w p obj hlive]
    · have hne : p ≠ w.store.next := Nat.ne_of_lt hlt
      simp [hne, hlive]
    · exact Nat.lt_succ_of_lt hlt

theorem runAll_preserves {β : Type} (body : Backend → PGAbstractValue → Nat → β × Backend)
    (ops : List Operation) (w : World) (p : AbstractValueSPtr) (obj : PGAbstractValue)
    (hlive : w.store.objects p = some obj) (hlt : p < w.store.next) :
    ∃ os w', runAll body ops w p = some (os, w') ∧ w'.store.objects p = some obj ∧
      ((∀ b x i, (body b x i).2 = b) → w'.backend = w.backend) := by
  induction ops generalizing w with
  | nil => exact ⟨[], w, rfl, hlive, fun _ => rfl⟩
  | cons op ops ih =>
    obtain ⟨o, w1, hrun, hlive1, hlt1, hb1⟩ := run_preserves body op w p obj hlive hlt
    obtain ⟨os, w2, hall, hlive2, hb2⟩ := ih w1 hlive1 hlt1
    refine ⟨o :: os, w2, ?_, hlive2, fun hread => (hb2 hread).trans (hb1 hread)⟩
    simp [runAll, hrun, hall]

theorem getValueByIDEffect_reads (typeMapping : Oid → Option TypeTag) :
    ∀ b x i, (PGAbstractValue.getValueByIDEffect typeMapping b x i).2 = b :=
  fun _ _ _ => rfl

theorem construct_live (w : World) (obj : PGAbstractValue) :
    (w.construct obj).2.store.objects (w.construct obj).1 = some obj ∧
      (w.construct obj).1 < (w.construct obj).2.store.next ∧
      (w.construct obj).2.backend = w.backend := by
  simp [World.construct, FreeStore.alloc]

/-! ### clone -/

/-- C1: for an adapter of either kind held at `a`, `clone()` succeeds and
`getValueByID(inID)` on the clone returns exactly what `getValueByID(inID)` returns on
the original, for every identifier, whatever accessor body `g` of the backend memory,
the wrapped reference and the identifier is used. -/
theorem getValueByID_clone_eq {β : Type} (g : Backend → PGAbstractValue → Nat → β)
    (w : World) (a : AbstractValueSPtr) (obj : PGAbstractValue) (inID : Nat)
    (hlive : w.store.objects a = some obj) :
    ∃ c w', w.clone a = some (c, w') ∧
      w'.getValueByID g c inID = w.getValueByID g a inID ∧
      w.getValueByID g a inID = some (g w.backend obj inID) := by
  refine ⟨_, _, clone_of_live w a obj hlive, ?_, ?_⟩
  · simp [World.getValueByID, hlive, clone_eq_self]
  · simp [World.getValueByID, hlive]

/-- C1, at the call-argument adapter of the sample world with the accessor bodies of
section 4: the clone of the object at address 0 answers identifier 0 with the same
value as the original, the non-null datum 100 of type 1. -/
theorem getValueByID_clone_eq_witness :
    sampleWorld.store.objects 0
        = some (PGAbstractValue.ofFunctionCallInfo sampleCallArguments) ∧
      ∃ c w', sampleWorld.clone 0 = some (c, w') ∧
        w'.getValueByID (PGAbstractValue.getValueByID sampleTypeMapping) c 0
          = sampleWorld.getValueByID (PGAbstractValue.getValueByID sampleTypeMapping) 0 0 ∧
        sampleWorld.getValueByID (PGAbstractValue.getValueByID sampleTypeMapping) 0 0
          = some (PGAbstractValue.getValueByID sampleTypeMapping sampleWorld.backend
              (PGAbstractValue.ofFunctionCallInfo sampleCallArguments) 0) :=
  ⟨rfl, getValueByID_clone_eq (PGAbstractValue.getValueByID sampleTypeMapping)
    sampleWorld 0 (PGAbstractValue.ofFunctionCallInfo sampleCallArguments) 0 rfl⟩

/-- C2: `clone()` on a live adapter returns a handle to a new object (an address that
was free and differs from the original), of the same concrete adapter kind, whose
wrapped pointer is the original pointer; the original object stays in place and the
backend memory, where the referenced data lives, is the same as before. -/
theorem clone_same_kind_same_reference (w : World) (a : AbstractValueSPtr)
    (obj : PGAbstractValue) (hwf : w.store.WellFormed)
    (hlive : w.store.objects a = some obj) :
    ∃ c w', w.clone a = some (c, w') ∧ c ≠ a ∧ w.store.objects c = none ∧
      w'.backend = w.backend ∧ w'.store.objects a = some obj ∧
      (∀ v, obj = PGAbstractValue.ofFunctionCallInfo v →
        ∃ v2, w'.store.objects c = some (PGAbstractValue.ofFunctionCallInfo v2) ∧
          v2.fcinfo = v.fcinfo) ∧
      (∀ v, obj = PGAbstractValue.ofHeapTupleHeader v →
        ∃ v2, w'.store.objects c = some (PGAbstractValue.ofHeapTupleHeader v2) ∧
          v2.mTuple = v.mTuple) := by
  have hlt : a < w.store.next := live_lt_next w.store hwf a obj hlive
  have hne : a ≠ w.store.next := Nat.ne_of_lt hlt
  refine ⟨_, _, clone_of_live w a obj hlive, hne.symm, hwf _ (Nat.le_refl _), rfl, ?_, ?_, ?_⟩
  · simp [hne, hlive]
  · intro v hv
    subst hv
    exact ⟨PGValue_FunctionCallInfo.copy v, by simp [PGAbstractValue.clone,
      PGValue_FunctionCallInfo.clone], rfl⟩
  · intro v hv
    subst hv
    exact ⟨PGValue_HeapTupleHeader.copy v, by simp [PGAbstractValue.clone,
      PGValue_HeapTupleHeader.clone], rfl⟩

/-- C2, at the record adapter of the sample world (address 1). -/
theorem clone_same_kind_same_reference_witness :
    sampleWorld.store.WellFormed ∧
      sampleWorld.store.objects 1 = some (PGAbstractValue.ofHeapTupleHeader sampleRecord) ∧
      ∃ c w', sampleWorld.clone 1 = some (c, w') ∧ c ≠ 1 ∧
        sampleWorld.store.objects c = none ∧
        w'.backend = sampleWorld.backend ∧
        w'.store.objects 1 = some (PGAbstractValue.ofHeapTupleHeader sampleRecord) ∧
        (∀ v, PGAbstractValue.ofHeapTupleHeader sampleRecord
            = PGAbstractValue.ofFunctionCallInfo v →
          ∃ v2, w'.store.objects c = some (PGAbstractValue.ofFunctionCallInfo v2) ∧
            v2.fcinfo = v.fcinfo) ∧
        (∀ v, PGAbstractValue.ofHeapTupleHeader sampleRecord
            = PGAbstractValue.ofHeapTupleHeader v →
          ∃ v2, w'.store.objects c = some (PGAbstractValue.ofHeapTupleHeader v2) ∧
            v2.mTuple = v.mTuple) :=
  ⟨sampleWorld_wellFormed, rfl,
    clone_same_kind_same_reference sampleWorld 1
      (PGAbstractValue.ofHeapTupleHeader sampleRecord) sampleWorld_wellFormed rfl⟩

/-- C7: both adapters are immutable after construction. Construct an adapter of
either kind from a reference in any world and invoke any sequence of the exposed
operations (`getValueByID` with any identifiers, `clone`) on it. Every operation
returns. Whatever the body of `getValueByID` does, also one that writes through the
pointer, the object afterwards still wraps the reference given to the constructor.
With the accessor of section 4, which has no side effects as the specification
requires, the backend memory holding the invocation contexts and records is
afterwards what it was before construction. -/
theorem adapters_immutable {β : Type}
    (body : Backend → PGAbstractValue → Nat → β × Backend)
    (typeMapping : Oid → Option TypeTag) (w : World) (ops : List Operation) :
    (∀ inFCinfo : FunctionCallInfo,
      (∃ os w' v,
        runAll body ops
            (w.construct (PGAbstractValue.ofFunctionCallInfo
              (PGValue_FunctionCallInfo.construct inFCinfo))).2
            (w.construct (PGAbstractValue.ofFunctionCallInfo
              (PGValue_FunctionCallInfo.construct inFCinfo))).1 = some (os, w') ∧
          w'.store.objects
            (w.construct (PGAbstractValue.ofFunctionCallInfo
              (PGValue_FunctionCallInfo.construct inFCinfo))).1
            = some (PGAbstractValue.ofFunctionCallInfo v) ∧
          v.fcinfo = inFCinfo) ∧
      (∃ os w' v,
        runAll (PGAbstractValue.getValueByIDEffect typeMapping) ops
            (w.construct (PGAbstractValue.ofFunctionCallInfo
              (PGValue_FunctionCallInfo.construct inFCinfo))).2
            (w.construct (PGAbstractValue.ofFunctionCallInfo
              (PGValue_FunctionCallInfo.construct inFCinfo))).1 = some (os, w') ∧
          w'.store.objects
            (w.construct (PGAbstractValue.ofFunctionCallInfo
              (PGValue_FunctionCallInfo.construct inFCinfo))).1
            = some (PGAbstractValue.ofFunctionCallInfo v) ∧
          v.fcinfo = inFCinfo ∧ w'.backend = w.backend)) ∧
    (∀ inTuple : HeapTupleHeader,
      (∃ os w' v,
        runAll body ops
            (w.construct (PGAbstractValue.ofHeapTupleHeader
              (PGValue_HeapTupleHeader.construct inTuple))).2
            (w.construct (PGAbstractValue.ofHeapTupleHeader
              (PGValue_HeapTupleHeader.construct inTuple))).1 = some (os, w') ∧
          w'.store.objects
            (w.construct (PGAbstractValue.ofHeapTupleHeader
              (PGValue_HeapTupleHeader.construct inTuple))).1
            = some (PGAbstractValue.ofHeapTupleHeader v) ∧
          v.mTuple = inTuple) ∧
      (∃ os w' v,
        runAll (PGAbstractValue.getValueByIDEffect typeMapping) ops
            (w.construct (PGAbstractValue.ofHeapTupleHeader
              (PGValue_HeapTupleHeader.construct inTuple))).2
            (w.construct (PGAbstractValue.ofHeapTupleHeader
              (PGValue_HeapTupleHeader.construct inTuple))).1 = some (os, w') ∧
          w'.store.objects
            (w.construct (PGAbstractValue.ofHeapTupleHeader
              (PGValue_HeapTupleHeader.construct inTuple))).1
            = some (PGAbstractValue.ofHeapTupleHeader v) ∧
          v.mTuple = inTuple ∧ w'.backend = w.backend)) := by
  constructor
  · intro inFCinfo
    obtain ⟨hlive, hlt, hb⟩ := construct_live w
      (PGAbstractValue.ofFunctionCallInfo (PGValue_FunctionCallInfo.construct inFCinfo))
    constructor
    · obtain ⟨os, w', hall, hlive2, _⟩ := runAll_preserves body ops _ _ _ hlive hlt
      exact ⟨os, w', PGValue_FunctionCallInfo.construct inFCinfo, hall, hlive2, rfl⟩
    · obtain ⟨os, w', hall, hlive2, hb2⟩ := runAll_preserves
        (PGAbstractValue.getValueByIDEffect typeMapping) ops _ _ _ hlive hlt
      exact ⟨os, w', PGValue_FunctionCallInfo.construct inFCinfo, hall, hlive2, rfl,
        (hb2 (getValueByIDEffect_reads typeMapping)).trans hb⟩
  · intro inTuple
    obtain ⟨hlive, hlt, hb⟩ := construct_live w
      (PGAbstractValue.ofHeapTupleHeader (PGValue_HeapTupleHeader.construct inTuple))
    constructor
    · obtain ⟨os, w', hall, hlive2, _⟩ := runAll_preserves body ops _ _ _ hlive hlt
      exact ⟨os, w', PGValue_HeapTupleHeader.construct inTuple, hall, hlive2, rfl⟩
    · obtain ⟨os, w', hall, hlive2, hb2⟩ := runAll_preserves
        (PGAbstractValue.getValueByIDEffect typeMapping) ops _ _ _ hlive hlt
      exact ⟨os, w', PGValue_HeapTupleHeader.construct inTuple, hall, hlive2, rfl,
        (hb2 (getValueByIDEffect_reads typeMapping)).trans hb⟩

/-- C8: for a live adapter `a` and its clone `c`, destroying `c` leaves `a` answering
`getValueByID(inID)` with the same result as before the clone was made, and destroying
`a` leaves `c` answering with that same result, for every identifier and every
accessor body `g`; destruction leaves the backend memory untouched, since neither
object owns what its pointer refers to. -/
theorem destroy_leaves_other_answering {β : Type}
    (g : Backend → PGAbstractValue → Nat → β)
    (w : World) (a : AbstractValueSPtr) (obj : PGAbstractValue) (inID : Nat)
    (hwf : w.store.WellFormed) (hlive : w.store.objects a = some obj) :
    ∃ c w', w.clone a = some (c, w') ∧
      w.getValueByID g a inID = some (g w.backend obj inID) ∧
      (w'.destroy c).getValueByID g a inID = w.getValueByID g a inID ∧
      (w'.destroy a).getValueByID g c inID = w.getValueByID g a inID ∧
      (w'.destroy c).getValueByID g c inID = none ∧
      (w'.destroy c).backend = w.backend ∧ (w'.destroy a).backend = w.backend := by
  have hlt : a < w.store.next := live_lt_next w.store hwf a obj hlive
  have hne : a ≠ w.store.next := Nat.ne_of_lt hlt
  refine ⟨_, _, clone_of_live w a obj hlive, ?_, ?_, ?_, ?_, rfl, rfl⟩
  · simp [World.getValueByID, hlive]
  · simp [World.getValueByID, World.destroy, FreeStore.destroy, hlive, hne]
  · simp [World.getValueByID, World.destroy, FreeStore.destroy, hlive, hne.symm,
      clone_eq_self]
  · simp [World.getValueByID, World.destroy, FreeStore.destroy]

/-- C8, at the call-argument adapter of the sample world (address 0) with the
accessor bodies of section 4 and identifier 1. -/
theorem destroy_leaves_other_answering_witness :
    sampleWorld.store.WellFormed ∧
      sampleWorld.store.objects 0
        = some (PGAbstractValue.ofFunctionCallInfo sampleCallArguments) ∧
      ∃ c w', sampleWorld.clone 0 = some (c, w') ∧
        sampleWorld.getValueByID (PGAbstractValue.getValueByID sampleTypeMapping) 0 1
          = some (PGAbstractValue.getValueByID sampleTypeMapping sampleWorld.backend
              (PGAbstractValue.ofFunctionCallInfo sampleCallArguments) 1) ∧
        (w'.destroy c).getValueByID (PGAbstractValue.getValueByID sampleTypeMapping) 0 1
          = sampleWorld.getValueByID (PGAbstractValue.getValueByID sampleTypeMapping) 0 1 ∧
        (w'.destroy 0).getValueByID (PGAbstractValue.getValueByID sampleTypeMapping) c 1
          = sampleWorld.getValueByID (PGAbstractValue.getValueByID sampleTypeMapping) 0 1 ∧
        (w'.destroy c).getValueByID (PGAbstractValue.getValueByID sampleTypeMapping) c 1
          = none ∧
        (w'.destroy c).backend = sampleWorld.backend ∧
        (w'.destroy 0).backend = sampleWorld.backend :=
  ⟨sampleWorld_wellFormed, rfl,
    destroy_leaves_other_answering (PGAbstractValue.getValueByID sampleTypeMapping)
      sampleWorld 0 (PGAbstractValue.ofFunctionCallInfo sampleCallArguments) 1
      sampleWorld_wellFormed rfl⟩

/-- C9: an adapter's only state is the reference given to its constructor. The
adapter constructed from `r` wraps exactly `r`; every adapter is the one constructed
from the reference it wraps; and two adapters of the same kind that come from the
same reference through any numbers `n` and `m` of `clone()` calls are equal as values
and get the same `getValueByID` result for every identifier, for every accessor
body `g`. -/
theorem adapter_state_is_reference {β : Type} (g : Backend → PGAbstractValue → Nat → β)
    (b : Backend) (n m inID : Nat) :
    (∀ r : FunctionCallInfo,
      (PGValue_FunctionCallInfo.construct r).fcinfo = r ∧
      PGAbstractValue.clone^[n]
          (PGAbstractValue.ofFunctionCallInfo (PGValue_FunctionCallInfo.construct r))
        = PGAbstractValue.clone^[m]
          (PGAbstractValue.ofFunctionCallInfo (PGValue_FunctionCallInfo.construct r)) ∧
      g b (PGAbstractValue.clone^[n]
          (PGAbstractValue.ofFunctionCallInfo (PGValue_FunctionCallInfo.construct r))) inID
        = g b (PGAbstractValue.clone^[m]
          (PGAbstractValue.ofFunctionCallInfo (PGValue_FunctionCallInfo.construct r))) inID) ∧
    (∀ r : HeapTupleHeader,
      (PGValue_HeapTupleHeader.construct r).mTuple = r ∧
      PGAbstractValue.clone^[n]
          (PGAbstractValue.ofHeapTupleHeader (PGValue_HeapTupleHeader.construct r))
        = PGAbstractValue.clone^[m]
          (PGAbstractValue.ofHeapTupleHeader (PGValue_HeapTupleHeader.construct r)) ∧
      g b (PGAbstractValue.clone^[n]
          (PGAbstractValue.ofHeapTupleHeader (PGValue_HeapTupleHeader.construct r))) inID
        = g b (PGAbstractValue.clone^[m]
          (PGAbstractValue.ofHeapTupleHeader (PGValue_HeapTupleHeader.construct r))) inID) ∧
    (∀ v : PGValue_FunctionCallInfo, v = PGValue_FunctionCallInfo.construct v.fcinfo) ∧
    (∀ v : PGValue_HeapTupleHeader, v = PGValue_HeapTupleHeader.construct v.mTuple) := by
  refine ⟨fun r => ⟨rfl, ?_, ?_⟩, fun r => ⟨rfl, ?_, ?_⟩, fun v => rfl, fun v => rfl⟩ <;>
    simp only [iterate_clone_eq_self]

/-! ### getValueByID on call arguments -/

/-- C5: for every invocation context and every identifier `i` at or above the
argument count, `getValueByID(i)` fails with `InvalidIdentifier` and hands back no
value. -/
theorem getValueByID_argument_out_of_range (typeMapping : Oid → Option TypeTag)
    (b : Backend) (self : PGValue_FunctionCallInfo) (i : Nat)
    (hi : (b.fcinfoData self.fcinfo).nargs ≤ i) :
    self.getValueByID typeMapping b i = Except.error PGError.InvalidIdentifier ∧
      ∀ v, self.getValueByID typeMapping b i ≠ Except.ok v := by
  have h : self.getValueByID typeMapping b i = Except.error PGError.InvalidIdentifier := by
    unfold PGValue_FunctionCallInfo.getValueByID
    rw [if_pos hi]
  refine ⟨h, ?_⟩
  intro v hv
  rw [h] at hv
  exact Except.noConfusion hv

/-- C5, the scenario of the specification: with 3 arguments, `getValueByID(3)` fails
with `InvalidIdentifier`. -/
theorem getValueByID_argument_out_of_range_witness :
    (sampleBackend.fcinfoData sampleCallArguments.fcinfo).nargs ≤ 3 ∧
      sampleCallArguments.getValueByID sampleTypeMapping sampleBackend 3
        = Except.error PGError.InvalidIdentifier :=
  ⟨by decide,
    (getValueByID_argument_out_of_range sampleTypeMapping sampleBackend
      sampleCallArguments 3 (by decide)).1⟩

/-! ### getValueByID on records -/

/-- C6: for every packed record and every identifier `f` that is 0 or above the
field count, `getValueByID(f)` fails with `InvalidIdentifier` and hands back no
value: the identifier domain of a record is 1-based. -/
theorem getValueByID_field_out_of_range (typeMapping : Oid → Option TypeTag)
    (b : Backend) (self : PGValue_HeapTupleHeader) (f : Nat)
    (hf : f = 0 ∨ (b.tupleData self.mTuple).natts < f) :
    self.getValueByID typeMapping b f = Except.error PGError.InvalidIdentifier ∧
      ∀ v, self.getValueByID typeMapping b f ≠ Except.ok v := by
  have h : self.getValueByID typeMapping b f = Except.error PGError.InvalidIdentifier := by
    unfold PGValue_HeapTupleHeader.getValueByID
    rw [if_pos hf]
  refine ⟨h, ?_⟩
  intro v hv
  rw [h] at hv
  exact Except.noConfusion hv

/-- C6, the scenario of the specification: with 4 fields, `getValueByID(0)` fails
with `InvalidIdentifier`. -/
theorem getValueByID_field_out_of_range_witness :
    ((0 : Nat) = 0 ∨ (sampleBackend.tupleData sampleRecord.mTuple).natts < 0) ∧
      sampleRecord.getValueByID sampleTypeMapping sampleBackend 0
        = Except.error PGError.InvalidIdentifier :=
  ⟨Or.inl rfl,
    (getValueByID_field_out_of_range sampleTypeMapping sampleBackend
      sampleRecord 0 (Or.inl rfl)).1⟩

end madlib.dbconnector
